import Mathlib

set_option maxRecDepth 16000

/-!
Verification of the VoteRakshak election backend (`backend/app.py`,
`backend/models.py`, `backend/face_utils.py`) against its natural-language
specification.  The Python code is shallowly embedded: pure helpers become
Lean functions, each Flask endpoint becomes a function from its request
fields, the current clock, the ledger's responses (modelled as explicit
oracle data, since the blockchain is an external collaborator) and the
local-database state to a response paired with the next database state.
-/

namespace VoteRakshak

/-! ## Byte-level helpers: bitwise operations on 32-bit words, SHA-256

`generate_enrollment_hash` in `app.py` uses `hashlib.sha256`; we embed a
full executable SHA-256 over byte lists (`Nat`s below 256), written with
plain `Nat` division/multiplication so the kernel can evaluate it. -/

/-- 32-bit exclusive or. -/
def xor32 (x y : Nat) : Nat := x ^^^ y

/-- 32-bit bitwise and. -/
def and32 (x y : Nat) : Nat := x &&& y

/-- 32-bit bitwise complement (on words below `2^32`). -/
def not32 (x : Nat) : Nat := 4294967295 - x % 4294967296

/-- Truncate to a 32-bit word. -/
def w32 (x : Nat) : Nat := x % 4294967296

/-- Right rotation of a 32-bit word by `n` places. -/
def rotr (n x : Nat) : Nat := x / 2 ^ n + x % 2 ^ n * 2 ^ (32 - n)

/-- Logical right shift of a 32-bit word. -/
def shr (n x : Nat) : Nat := x / 2 ^ n

def sigmaBig0 (x : Nat) : Nat := xor32 (rotr 2 x) (xor32 (rotr 13 x) (rotr 22 x))
def sigmaBig1 (x : Nat) : Nat := xor32 (rotr 6 x) (xor32 (rotr 11 x) (rotr 25 x))
def sigmaSmall0 (x : Nat) : Nat := xor32 (rotr 7 x) (xor32 (rotr 18 x) (shr 3 x))
def sigmaSmall1 (x : Nat) : Nat := xor32 (rotr 17 x) (xor32 (rotr 19 x) (shr 10 x))
def chFn (e f g : Nat) : Nat := xor32 (and32 e f) (and32 (not32 e) g)
def majFn (a b c : Nat) : Nat := xor32 (and32 a b) (xor32 (and32 a c) (and32 b c))

/-- The 64 SHA-256 round constants. -/
def shaK : List Nat :=
  [1116352408, 1899447441, 3049323471, 3921009573, 961987163,
   1508970993, 2453635748, 2870763221, 3624381080, 310598401,
   607225278, 1426881987, 1925078388, 2162078206, 2614888103,
   3248222580, 3835390401, 4022224774, 264347078, 604807628,
   770255983, 1249150122, 1555081692, 1996064986, 2554220882,
   2821834349, 2952996808, 3210313671, 3336571891, 3584528711,
   113926993, 338241895, 666307205, 773529912, 1294757372,
   1396182291, 1695183700, 1986661051, 2177026350, 2456956037,
   2730485921, 2820302411, 3259730800, 3345764771, 3516065817,
   3600352804, 4094571909, 275423344, 430227734, 506948616,
   659060556, 883997877, 958139571, 1322822218, 1537002063,
   1747873779, 1955562222, 2024104815, 2227730452, 2361852424,
   2428436474, 2756734187, 3204031479, 3329325298]

/-- Initial SHA-256 hash state. -/
def shaH0 : List Nat :=
  [1779033703, 3144134277, 1013904242, 2773480762,
   1359893119, 2600822924, 528734635, 1541459225]

/-- Extend a 16-word block to the 64-word message schedule. -/
def shaSchedule (ws : Array Nat) : Array Nat :=
  (List.range 48).foldl
    (fun a j =>
      let i := j + 16
      a.push (w32 (sigmaSmall1 a[i - 2]! + a[i - 7]! + sigmaSmall0 a[i - 15]! + a[i - 16]!)))
    ws

/-- One SHA-256 compression round. -/
def shaRound (K W : Array Nat) (st : List Nat) (i : Nat) : List Nat :=
  match st with
  | [a, b, c, d, e, f, g, h] =>
      let t1 := w32 (h + sigmaBig1 e + chFn e f g + K[i]! + W[i]!)
      let t2 := w32 (sigmaBig0 a + majFn a b c)
      [w32 (t1 + t2), a, b, c, w32 (d + t1), e, f, g]
  | st => st

/-- Compress one 16-word block into the running hash state. -/
def shaCompress (st : List Nat) (block : Array Nat) : List Nat :=
  let W := shaSchedule block
  let out := (List.range 64).foldl (shaRound shaK.toArray W) st
  (List.zip st out).map fun p => w32 (p.1 + p.2)

/-- Split a list into chunks of `n` elements (with `fuel` bounding recursion). -/
def chunks (n : Nat) : Nat → List Nat → List (List Nat)
  | 0, _ => []
  | _, [] => []
  | fuel + 1, l => l.take n :: chunks n fuel (l.drop n)

/-- Big-endian bytes (most significant first) of `x`, `k` bytes wide. -/
def beBytes : Nat → Nat → List Nat
  | 0, _ => []
  | k + 1, x => x / 256 ^ k % 256 :: beBytes k (x % 256 ^ k)

/-- Assemble four big-endian bytes into one 32-bit word. -/
def wordOfBytes (bs : List Nat) : Nat := bs.foldl (fun acc b => acc * 256 + b) 0

/-- SHA-256 padding: append `0x80`, zeros to 56 mod 64, and the 64-bit bit length. -/
def shaPad (msg : List Nat) : List Nat :=
  let L := msg.length
  let zeros := (64 + 55 - L % 64) % 64
  msg ++ [0x80] ++ List.replicate zeros 0 ++ beBytes 8 (L * 8)

/-- SHA-256 of a byte list, as the 32-byte digest. -/
def sha256 (msg : List Nat) : List Nat :=
  let padded := shaPad msg
  let blocks := (chunks 64 (padded.length + 1) padded).map
    fun blk => ((chunks 4 17 blk).map wordOfBytes).toArray
  let final := blocks.foldl shaCompress shaH0
  final.flatMap (beBytes 4)

/-- Lower-case hexadecimal digit characters, as in Python's `hexdigest`. -/
def hexChar (d : Nat) : Char :=
  match d with
  | 0 => '0' | 1 => '1' | 2 => '2' | 3 => '3' | 4 => '4'
  | 5 => '5' | 6 => '6' | 7 => '7' | 8 => '8' | 9 => '9'
  | 10 => 'a' | 11 => 'b' | 12 => 'c' | 13 => 'd' | 14 => 'e'
  | _ => 'f'

/-- Hex encoding of a byte list (two lower-case digits per byte). -/
def hexOfBytes (bs : List Nat) : String :=
  ⟨bs.flatMap fun b => [hexChar (b / 16), hexChar (b % 16)]⟩

/-- UTF-8 encoding of one character (`str.encode()` in Python). -/
def utf8Char (c : Char) : List Nat :=
  let n := c.toNat
  if n < 0x80 then [n]
  else if n < 0x800 then [0xc0 + n / 64, 0x80 + n % 64]
  else if n < 0x10000 then [0xe0 + n / 4096, 0x80 + n / 64 % 64, 0x80 + n % 64]
  else [0xf0 + n / 262144, 0x80 + n / 4096 % 64, 0x80 + n / 64 % 64, 0x80 + n % 64]

/-- UTF-8 bytes of a string. -/
def strBytes (s : String) : List Nat := s.data.flatMap utf8Char

/-- `hashlib.sha256(s.encode()).hexdigest()`. -/
def sha256Hex (s : String) : String := hexOfBytes (sha256 (strBytes s))

/-! ## Decimal formatting of a natural number

Python's f-string `f"{enrollment}:{election_id}"` prints the election id in
decimal; we embed that formatter via `Nat.digits`. -/

/-- Decimal digit characters. -/
def decChar (d : Nat) : Char :=
  match d with
  | 0 => '0' | 1 => '1' | 2 => '2' | 3 => '3' | 4 => '4'
  | 5 => '5' | 6 => '6' | 7 => '7' | 8 => '8' | _ => '9'

/-- Little-endian decimal digits of `n`, with explicit fuel so the kernel
can evaluate it (agrees with `Nat.digits 10`, see `decDigitsAux_eq_digits`). -/
def decDigitsAux : Nat → Nat → List Nat
  | 0, _ => []
  | fuel + 1, n => if n = 0 then [] else n % 10 :: decDigitsAux fuel (n / 10)

/-- Decimal representation of a natural number, as printed by Python. -/
def natRepr (n : Nat) : String :=
  if n = 0 then "0" else ⟨((decDigitsAux n n).reverse.map decChar)⟩

/-! ## Enrollment hashing (`generate_enrollment_hash` in `app.py`) -/

/-- `generate_enrollment_hash(enrollment, election_id)`:
`"0x" + hashlib.sha256(f"{enrollment}:{election_id}".encode()).hexdigest()`. -/
def generate_enrollment_hash (enrollment : String) (election_id : Nat) : String :=
  "0x" ++ sha256Hex (enrollment ++ ":" ++ natRepr election_id)

/-! ## Python truthiness and string helpers -/

/-- Python `x or y` for strings (`""` is falsy). -/
def pyOr (x y : String) : String := if x = "" then y else x

/-- Python `d.get(k)` result coerced through `or`-chains: `None` and `""` both
act as falsy, so a missing key behaves like the empty string here. -/
def optStr (o : Option String) : String := o.getD ""

/-- Python `str.strip()`: drop whitespace from both ends. -/
def pyStrip (s : String) : String :=
  ⟨((s.data.dropWhile Char.isWhitespace).reverse.dropWhile Char.isWhitespace).reverse⟩

/-- Whether `needle` occurs as a contiguous run inside `haystack`. -/
def listIsInfixOf (needle : List Char) : List Char → Bool
  | [] => needle.isEmpty
  | c :: rest => needle.isPrefixOf (c :: rest) || listIsInfixOf needle rest

/-- Python `needle in haystack` on strings. -/
def pyIn (needle haystack : String) : Bool := listIsInfixOf needle.data haystack.data

/-- Python `str.lower()`. -/
def pyLower (s : String) : String := ⟨s.data.map Char.toLower⟩

/-! ## Transaction submitter (`send_contract_tx` in `app.py`)

The web3 transport is external, so the submitter is embedded as a function of
the transport's outcome: success carries the transaction hash and confirmation
receipt's block number; failure carries the raw exception shape, from which
the submitter extracts a flat reason string. -/

/-- Shape of a `ValueError` whose `args[0]` is a dict: the optional
`data.reason` / `data.message` fields (when `data` is itself a dict) and the
top-level `message` field. -/
structure ErrDict where
  dataIsDict : Bool
  dataReason : Option String
  dataMessage : Option String
  message : Option String
deriving DecidableEq

/-- The ways the underlying web3 call can fail, as caught by
`send_contract_tx`'s two `except` arms. -/
inductive TxFailure
  /-- `ValueError` with a dict payload in `e.args[0]`. -/
  | valueErrorDict (d : ErrDict)
  /-- `ValueError` whose `e.args[0]` is not a dict; carries `str(err)`. -/
  | valueErrorOther (s : String)
  /-- Any other exception; carries `str(e)`. -/
  | otherException (s : String)
deriving DecidableEq

/-- Outcome of the build/sign/broadcast/wait pipeline. -/
inductive TxOutcome
  | success (tx_hash : String) (blockNumber : Nat)
  | failure (f : TxFailure)
deriving DecidableEq

/-- The lazy group of `re.search(r"revert (.+?)(?:'|$)", s, re.IGNORECASE)`
starting right after a matched `"revert "`: the shortest nonempty run of
non-newline characters whose successor position is a `'`, the end of the
string, or the position just before a trailing newline. -/
def revertGroup : List Char → Option (List Char)
  | [] => none
  | c :: rest =>
    if c = '\n' then none
    else
      match rest with
      | [] => some [c]
      | d :: rest2 =>
        if d = Char.ofNat 39 then some [c]
        else if d = '\n' ∧ rest2 = [] then some [c]
        else (revertGroup rest).map (c :: ·)

/-- Drop a case-insensitive literal pattern from the front of a character
list, returning the remainder on success. -/
def dropCaseless : List Char → List Char → Option (List Char)
  | [], cs => some cs
  | _, [] => none
  | p :: ps, c :: cs => if c.toLower = p then dropCaseless ps cs else none

/-- Leftmost match of the revert-reason pattern. -/
def revertSearch : List Char → Option (List Char)
  | [] => none
  | c :: rest =>
    match dropCaseless "revert ".data (c :: rest) with
    | some tail =>
      match revertGroup tail with
      | some g => some g
      | none => revertSearch rest
    | none => revertSearch rest

/-- The free-text arm of `send_contract_tx`'s error handling: if `"revert"`
occurs in the lowercased text and the pattern matches, the stripped group. -/
def extractRevertReason (s : String) : Option String :=
  if pyIn "revert" (pyLower s) then (revertSearch s.data).map fun g => pyStrip ⟨g⟩
  else none

/-- The flat reason string `send_contract_tx` returns for a failure. -/
def normalizeFailure : TxFailure → String
  | .valueErrorDict d =>
    let reason0 := if d.dataIsDict then pyOr (optStr d.dataReason) (optStr d.dataMessage) else ""
    let reason1 := pyOr reason0 (pyOr (optStr d.message) "Blockchain error")
    pyOr reason1 "Blockchain error"
  | .valueErrorOther s => pyOr s "Blockchain error"
  | .otherException s =>
    match extractRevertReason s with
    | some r => r
    | none => s

/-- Result triple of `send_contract_tx`: `(tx_hash, receipt, error)`, where
the receipt is reduced to the block number the callers read from it. -/
structure TxResult where
  tx_hash : Option String
  blockNumber : Option Nat
  error : Option String
deriving DecidableEq

/-- `send_contract_tx(fn, *args, gas)` as a function of the transport outcome. -/
def send_contract_tx : TxOutcome → TxResult
  | .success h bn => ⟨some h, some bn, none⟩
  | .failure f => ⟨none, none, some (normalizeFailure f)⟩

/-! ## Phase mapping and request-field helpers -/

/-- `PHASE_MAP.get(n, "UNKNOWN")`: contract enum value to phase string. -/
def PHASE_MAP (n : Nat) : String :=
  if n = 0 then "CREATED"
  else if n = 1 then "ACTIVE"
  else if n = 2 then "ENDED"
  else if n = 3 then "RESULT_DECLARED"
  else "UNKNOWN"

/-- Python truthiness of an optional form field (`None` and `""` are falsy). -/
def pyTruthy : Option String → Bool
  | none => false
  | some s => s ≠ ""

/-- Digits-only string to number (helper for `int(...)`). -/
def digitsToNat? (cs : List Char) : Option Nat :=
  match cs with
  | [] => none
  | _ =>
    if cs.all Char.isDigit then some (cs.foldl (fun a c => a * 10 + (c.toNat - 48)) 0)
    else none

/-- Python `int(s)`: optional surrounding whitespace, optional sign, decimal
digits; anything else raises `ValueError`. -/
def pyIntParse (s : String) : Option Int :=
  let t := ((s.data.dropWhile Char.isWhitespace).reverse.dropWhile Char.isWhitespace).reverse
  match t with
  | '+' :: rest => (digitsToNat? rest).map Int.ofNat
  | '-' :: rest => (digitsToNat? rest).map fun n => -(n : Int)
  | cs => (digitsToNat? cs).map Int.ofNat

/-! ## `face_utils.py` -/

/-- `compare_faces(known_bytes, test_img)` from `face_utils.py`: the shipped
implementation ignores both arguments and returns `True` ("In mock mode,
always accept the face"). The decoded test image is abstracted as a `Nat`. -/
def compare_faces (_known_bytes : List Nat) (_test_img : Nat) : Bool := true

/-- `hash_encoding(emb)`: `"0x" + hashlib.sha256(emb.tobytes()).hexdigest()`,
on the encoding's bytes. -/
def hash_encoding (emb : List Nat) : String := "0x" ++ hexOfBytes (sha256 emb)

/-! ## Local database model (`models.py`)

Each SQLAlchemy model becomes a row structure; the database is lists of rows.
`VoteReceiptRow` mirrors the `vote_receipts` table: receipt id, election id,
enrollment hash, visible tag, transaction hash, block number and timestamp —
and deliberately nothing else; in particular there is no candidate column. -/

structure AdminRow where
  username : String
  password_hash : String
  face_encoding : List Nat
deriving DecidableEq

structure VoterRow where
  id : Nat
  enrollment : String
  name : String
  face_encoding : List Nat
deriving DecidableEq

structure ElectionRow where
  blockchain_id : Nat
  name : String
  description : String
  phase : String
  is_live_results : Bool
  expires_at : Option Nat
  started_at : Option Nat
  ended_at : Option Nat
deriving DecidableEq

structure VoteReceiptRow where
  receipt_id : Option Nat
  election_id : Nat
  enrollment_hash : String
  visible_tag : String
  tx_hash : String
  block_number : Nat
  timestamp : Nat
deriving DecidableEq

structure VoterElectionRegistrationRow where
  voter_id : Nat
  election_id : Nat
  enrollment : String
  face_hash : String
  has_voted : Bool
deriving DecidableEq

structure DB where
  admins : List AdminRow
  voters : List VoterRow
  elections : List ElectionRow
  vote_receipts : List VoteReceiptRow
  registrations : List VoterElectionRegistrationRow
deriving DecidableEq

/-- `db.query(Election).filter_by(blockchain_id=eid).first()`. -/
def findElection (db : DB) (eid : Nat) : Option ElectionRow :=
  db.elections.find? fun r => r.blockchain_id == eid

/-- Update the first election row with the given `blockchain_id`, as a
`filter_by(...).first()` mutation followed by `commit()` does. -/
def updateFirstElection (l : List ElectionRow) (eid : Nat) (f : ElectionRow → ElectionRow) :
    List ElectionRow :=
  match l with
  | [] => []
  | r :: rest =>
    if r.blockchain_id == eid then f r :: rest else r :: updateFirstElection rest eid f

/-! ## Election management endpoints (`app.py`)

External interactions (ledger calls, image decoding, face encodings) appear
as explicit oracle inputs; DB state is threaded in and out explicitly. -/

inductive CreateResponse
  /-- 400 `"Election name required"`. -/
  | nameRequired
  /-- 500 with the normalized submitter error. -/
  | txFailed (err : String)
  /-- Uncaught exception from the follow-up `getElectionCount` call. -/
  | countFailed (detail : String)
  /-- 200 `{"ok": True, "election_id": ..., "tx": ...}`. -/
  | created (election_id : Nat) (tx_hash : Option String)
deriving DecidableEq

/-- `create_election` (`POST /api/elections`). -/
def create_election (name : Option String) (description : String) (is_live_results : Bool)
    (expires_at_dt : Option Nat) (tx : TxOutcome) (electionCountAfter : Except String Nat)
    (db : DB) : CreateResponse × DB :=
  if ¬ pyTruthy name then (.nameRequired, db)
  else
    let res := send_contract_tx tx
    match res.error with
    | some err => (.txFailed err, db)
    | none =>
      match electionCountAfter with
      | .error e => (.countFailed e, db)
      | .ok election_count =>
        let row : ElectionRow :=
          { blockchain_id := election_count, name := name.getD "", description := description,
            phase := "CREATED", is_live_results := is_live_results,
            expires_at := expires_at_dt, started_at := none, ended_at := none }
        (.created election_count res.tx_hash, { db with elections := db.elections ++ [row] })

inductive AdminTxResponse
  /-- 500 with the normalized submitter error. -/
  | txFailed (err : String)
  /-- 200 `{"ok": True, "tx": ..., "phase": ...}`. -/
  | ok (tx_hash : Option String) (phase : String)
deriving DecidableEq

/-- `start_election` (`POST /api/elections/<id>/start`). -/
def start_election (election_id : Nat) (tx : TxOutcome) (now : Nat) (db : DB) :
    AdminTxResponse × DB :=
  let res := send_contract_tx tx
  match res.error with
  | some err => (.txFailed err, db)
  | none =>
    (.ok res.tx_hash "ACTIVE",
     { db with elections := updateFirstElection db.elections election_id
                  (fun r => { r with phase := "ACTIVE", started_at := some now }) })

/-- `end_election` (`POST /api/elections/<id>/end`). -/
def end_election (election_id : Nat) (tx : TxOutcome) (now : Nat) (db : DB) :
    AdminTxResponse × DB :=
  let res := send_contract_tx tx
  match res.error with
  | some err => (.txFailed err, db)
  | none =>
    (.ok res.tx_hash "ENDED",
     { db with elections := updateFirstElection db.elections election_id
                  (fun r => { r with phase := "ENDED", ended_at := some now }) })

/-- `declare_results` (`POST /api/elections/<id>/declare`). -/
def declare_results (election_id : Nat) (tx : TxOutcome) (db : DB) :
    AdminTxResponse × DB :=
  let res := send_contract_tx tx
  match res.error with
  | some err => (.txFailed err, db)
  | none =>
    (.ok res.tx_hash "RESULT_DECLARED",
     { db with elections := updateFirstElection db.elections election_id
                  (fun r => { r with phase := "RESULT_DECLARED" }) })

/-- Effective phase as computed inside `list_elections` / `get_election`:
`if phase == "ACTIVE" and exp_dt and utcnow() > exp_dt: phase = "EXPIRED"`. -/
def list_elections_phase (phase_int : Nat) (db_el : Option ElectionRow) (now : Nat) : String :=
  let phase := PHASE_MAP phase_int
  match db_el with
  | some el =>
    match el.expires_at with
    | some exp => if phase = "ACTIVE" ∧ now > exp then "EXPIRED" else phase
    | none => phase
  | none => phase

/-! ## Candidate listing -/

/-- Result row of `getElection(id)` on the ledger. -/
structure ElectionData where
  id : Nat
  name : String
  description : String
  phase_int : Nat
  candidateCount : Nat
  totalVotes : Nat
  createdAt : Nat
  startedAt : Nat
  endedAt : Nat
deriving DecidableEq

/-- One entry of the `list_candidates` JSON response. -/
structure CandidateOut where
  id : Nat
  name : String
  votes : Nat
deriving DecidableEq

/-- `list_candidates` (`GET /api/elections/<id>/candidates`); `getCandidate`
is the ledger's per-index candidate read (`(cid, name, votes)`). -/
def list_candidates (election_id : Nat) (getElection : Except String ElectionData)
    (getCandidate : Nat → Nat × String × Nat) (db : DB) :
    Except String (List CandidateOut) :=
  match getElection with
  | .error e => .error e
  | .ok data =>
    let phase := PHASE_MAP data.phase_int
    let is_live :=
      match findElection db election_id with
      | some el => el.is_live_results
      | none => true
    let hide_results := (!is_live) && (phase ≠ "RESULT_DECLARED" : Bool)
    .ok ((List.range data.candidateCount).map fun j =>
      let (cid, nm, votes) := getCandidate (j + 1)
      { id := cid, name := nm, votes := if hide_results then 0 else votes })

/-! ## Voting endpoints -/

/-- External inputs consumed by one run of a vote endpoint: the ledger's
phase answer, the image-decoding and face-encoding pipeline results, the
transport outcome for the vote transaction, the `VoteCast` event parse
(list of decoded `receiptId`s, or an exception), and the
`globalReceiptCounter` fallback read. -/
structure VoteOracle where
  phaseCall : Except String Nat
  saveImage : Except String Nat
  encodeResult : Except String (List Nat)
  voteTx : TxOutcome
  voteCastEvent : Except String (List Nat)
  globalCounter : Except String Nat


inductive VoteResponse
  /-- 400 `"All fields required"`. -/
  | allFieldsRequired
  /-- 400 `"Voting not allowed. Election phase: <phase>"`. -/
  | phaseGate (phase : String)
  /-- 500 `"Failed to check election phase: <e>"`. -/
  | phaseCheckFailed (detail : String)
  /-- 404 `"Voter not found"`. -/
  | voterNotFound
  /-- 401 `"Face mismatch"`. -/
  | faceMismatch
  /-- 400 `"You already voted"`. -/
  | alreadyVoted
  /-- 500 with the normalized submitter error. -/
  | txError (reason : String)
  /-- 500 `"Vote failed"` with the exception detail. -/
  | voteFailed (detail : String)
  /-- 200 `{"ok": True, ...}`; `visible_tag` is present only on the v2 route. -/
  | voteSuccess (tx_hash : String) (receipt_id : Option Nat) (block_number : Nat)
      (visible_tag : Option String)
deriving DecidableEq

/-- Effective phase as computed inside `vote_v2`: `if db_el and
db_el.expires_at and utcnow() > db_el.expires_at and phase == "ACTIVE"`. -/
def vote_v2_phase (phase_int : Nat) (db_el : Option ElectionRow) (now : Nat) : String :=
  let phase := PHASE_MAP phase_int
  match db_el with
  | some el =>
    match el.expires_at with
    | some exp => if now > exp ∧ phase = "ACTIVE" then "EXPIRED" else phase
    | none => phase
  | none => phase

/-- `vote_v2` (`POST /api/elections/<id>/vote`). Returns the response, the
next DB state, and whether the vote transaction was handed to the submitter. -/
def vote_v2 (election_id : Nat) (enrollment candidate_id image_b64 : Option String)
    (now : Nat) (o : VoteOracle) (db : DB) : VoteResponse × DB × Bool :=
  if ¬ (pyTruthy enrollment && pyTruthy candidate_id && pyTruthy image_b64) then
    (.allFieldsRequired, db, false)
  else
    let enr := enrollment.getD ""
    let cand := candidate_id.getD ""
    match o.phaseCall with
    | .error e => (.phaseCheckFailed e, db, false)
    | .ok phase_int =>
      let phase := vote_v2_phase phase_int (findElection db election_id) now
      if phase ≠ "ACTIVE" then (.phaseGate phase, db, false)
      else
        match db.voters.find? (fun v => v.enrollment == enr) with
        | none => (.voterNotFound, db, false)
        | some voter =>
          match o.saveImage with
          | .error e => (.voteFailed e, db, false)
          | .ok img =>
            if ¬ compare_faces voter.face_encoding img then (.faceMismatch, db, false)
            else
              match o.encodeResult with
              | .error e => (.voteFailed e, db, false)
              | .ok new_enc =>
                let _face_hash := hash_encoding new_enc
                match pyIntParse cand with
                | none =>
                  (.voteFailed ("invalid literal for int() with base 10: " ++ cand), db, false)
                | some _cid =>
                  let res := send_contract_tx o.voteTx
                  match res.error with
                  | some err =>
                    if pyIn "already voted" (pyLower err) then (.alreadyVoted, db, true)
                    else (.txError err, db, true)
                  | none =>
                    let tx_hash := res.tx_hash.getD ""
                    let bn := res.blockNumber.getD 0
                    let enrollment_hash := generate_enrollment_hash enr election_id
                    let ridE : Except String (Option Nat) :=
                      match o.voteCastEvent with
                      | .ok (r :: _) => .ok (some r)
                      | .ok [] => .ok none
                      | .error _ =>
                        match o.globalCounter with
                        | .ok n => .ok (some n)
                        | .error e => .error e
                    match ridE with
                    | .error e => (.voteFailed e, db, true)
                    | .ok receipt_id =>
                      let row : VoteReceiptRow :=
                        { receipt_id := receipt_id, election_id := election_id,
                          enrollment_hash := enrollment_hash,
                          visible_tag := enrollment_hash.take 10,
                          tx_hash := tx_hash, block_number := bn, timestamp := now }
                      (.voteSuccess tx_hash receipt_id bn (some (enrollment_hash.take 10)),
                       { db with vote_receipts := db.vote_receipts ++ [row] }, true)

/-- `vote_legacy` (`POST /vote`): same pipeline but no expiry override in the
phase gate, and the receipt id always comes from `globalReceiptCounter`. -/
def vote_legacy (election_id : Nat) (enrollment candidate_id image_b64 : Option String)
    (now : Nat) (o : VoteOracle) (db : DB) : VoteResponse × DB × Bool :=
  if ¬ (pyTruthy enrollment && pyTruthy candidate_id && pyTruthy image_b64) then
    (.allFieldsRequired, db, false)
  else
    let enr := enrollment.getD ""
    let cand := candidate_id.getD ""
    match o.phaseCall with
    | .error e => (.phaseCheckFailed e, db, false)
    | .ok phase_int =>
      let phase := PHASE_MAP phase_int
      if phase ≠ "ACTIVE" then (.phaseGate phase, db, false)
      else
        match db.voters.find? (fun v => v.enrollment == enr) with
        | none => (.voterNotFound, db, false)
        | some voter =>
          match o.saveImage with
          | .error e => (.voteFailed e, db, false)
          | .ok img =>
            if ¬ compare_faces voter.face_encoding img then (.faceMismatch, db, false)
            else
              match o.encodeResult with
              | .error e => (.voteFailed e, db, false)
              | .ok new_enc =>
                let _face_hash := hash_encoding new_enc
                match pyIntParse cand with
                | none =>
                  (.voteFailed ("invalid literal for int() with base 10: " ++ cand), db, false)
                | some _cid =>
                  let res := send_contract_tx o.voteTx
                  match res.error with
                  | some err =>
                    if pyIn "already voted" (pyLower err) then (.alreadyVoted, db, true)
                    else (.txError err, db, true)
                  | none =>
                    let tx_hash := res.tx_hash.getD ""
                    let bn := res.blockNumber.getD 0
                    match o.globalCounter with
                    | .error e => (.voteFailed e, db, true)
                    | .ok rid =>
                      let enrollment_hash := generate_enrollment_hash enr election_id
                      let row : VoteReceiptRow :=
                        { receipt_id := some rid, election_id := election_id,
                          enrollment_hash := enrollment_hash,
                          visible_tag := enrollment_hash.take 10,
                          tx_hash := tx_hash, block_number := bn, timestamp := now }
                      (.voteSuccess tx_hash (some rid) bn none,
                       { db with vote_receipts := db.vote_receipts ++ [row] }, true)

/-! ## Receipt verification (`verify_receipt` in `app.py`) -/

/-- `getVoteReceipt(receiptId)` result on the ledger:
`(receiptId, electionId, visibleTagBytes, timestamp, exists)`. -/
structure ChainReceipt where
  receipt_id : Nat
  election_id : Nat
  visible_tag_bytes : List Nat
  timestamp : Nat
  exists_flag : Bool
deriving DecidableEq

/-- The `"blockchain"` object of the verification response. -/
structure BlockchainView where
  receipt_id : Option Nat
  election_id : Nat
  visible_tag : String
  timestamp : Nat
  exists_flag : Bool
deriving DecidableEq

/-- The JSON body and status code of `verify_receipt`'s response. -/
structure VerifyOut where
  verified : Bool
  blockchain : Option BlockchainView
  localRow : Option VoteReceiptRow
  message : Option String
  error : Option String
  status : Nat
deriving DecidableEq

/-- `bytes.rstrip(b'\x00')`. -/
def rstripZeros (bs : List Nat) : List Nat := (bs.reverse.dropWhile (· == 0)).reverse

/-- `bytes.decode('utf-8', errors='replace')`, restricted to the single-byte
(ASCII) sequences that on-chain tags consist of; other bytes become U+FFFD. -/
def decodeBytes (bs : List Nat) : String :=
  ⟨bs.map fun b => if b < 128 then Char.ofNat b else '�'⟩

/-- `verify_receipt` (`GET /api/receipts/verify/<id>`): `chain` is the
outcome of the `getVoteReceipt` ledger call. -/
def verify_receipt (receipt_id : Nat) (chain : Except String ChainReceipt) (db : DB) :
    VerifyOut :=
  let local_receipt := db.vote_receipts.find? fun r => r.receipt_id == some receipt_id
  match chain with
  | .error chain_err =>
    match local_receipt with
    | some r =>
      { verified := true,
        blockchain := some
          { receipt_id := r.receipt_id, election_id := r.election_id,
            visible_tag := r.visible_tag, timestamp := 0, exists_flag := true },
        localRow := some r,
        message := some "Vote verified from local database (blockchain unavailable)",
        error := none, status := 200 }
    | none =>
      { verified := false, blockchain := none, localRow := none,
        message := none, error := some chain_err, status := 500 }
  | .ok data =>
    if ¬ data.exists_flag then
      match local_receipt with
      | some r =>
        { verified := true,
          blockchain := some
            { receipt_id := r.receipt_id, election_id := r.election_id,
              visible_tag := r.visible_tag, timestamp := 0, exists_flag := true },
          localRow := some r,
          message := some "Vote record found in database",
          error := none, status := 200 }
      | none =>
        { verified := false, blockchain := none, localRow := none,
          message := none, error := some "Receipt not found", status := 404 }
    else
      { verified := true,
        blockchain := some
          { receipt_id := some data.receipt_id, election_id := data.election_id,
            visible_tag := decodeBytes (rstripZeros data.visible_tag_bytes),
            timestamp := data.timestamp, exists_flag := true },
        localRow := local_receipt,
        message := some "Vote exists on blockchain and is immutable",
        error := none, status := 200 }

/-! ## Admin face login (`admin_login_face` in `app.py`) -/

inductive FaceLoginResponse
  /-- 404 `"Unknown admin"`. -/
  | unknownAdmin
  /-- 401 `"Face mismatch"`. -/
  | faceMismatch
  /-- 200 with a JWT. -/
  | okToken
  /-- 500 `"Face login failed"`. -/
  | loginFailed (detail : String)
deriving DecidableEq

/-- `admin_login_face` (`POST /admin/login_face`): `saveImage` is the image
decode pipeline outcome. -/
def admin_login_face (username : Option String) (saveImage : Except String Nat) (db : DB) :
    FaceLoginResponse :=
  match db.admins.find? (fun a => some a.username == username) with
  | none => .unknownAdmin
  | some admin =>
    match saveImage with
    | .error e => .loginFailed e
    | .ok img =>
      if ¬ compare_faces admin.face_encoding img then .faceMismatch
      else .okToken

/-! ## Concrete sample states used to instantiate the theorems -/

/-- A database with one registered voter and one ACTIVE election without
an expiry deadline. -/
def wVoterDB : DB :=
  { admins := [], voters := [⟨1, "E100", "Alice", []⟩],
    elections := [{ blockchain_id := 1, name := "GE", description := "", phase := "ACTIVE",
                    is_live_results := true, expires_at := none, started_at := none,
                    ended_at := none }],
    vote_receipts := [], registrations := [] }

/-- Same database but the election's cached `expires_at` is 100. -/
def wExpiredDB : DB :=
  { admins := [], voters := [⟨1, "E100", "Alice", []⟩],
    elections := [{ blockchain_id := 1, name := "GE", description := "", phase := "ACTIVE",
                    is_live_results := true, expires_at := some 100, started_at := none,
                    ended_at := none }],
    vote_receipts := [], registrations := [] }

/-- Same database but the election hides live results. -/
def wHiddenDB : DB :=
  { admins := [], voters := [⟨1, "E100", "Alice", []⟩],
    elections := [{ blockchain_id := 1, name := "GE", description := "", phase := "ENDED",
                    is_live_results := false, expires_at := none, started_at := none,
                    ended_at := none }],
    vote_receipts := [], registrations := [] }

/-- A vote oracle with the given phase answer and transaction outcome; the
image pipeline succeeds and the receipt counter reads 7. -/
def wOracle (ph : Except String Nat) (tx : TxOutcome) : VoteOracle :=
  { phaseCall := ph, saveImage := .ok 0, encodeResult := .ok [], voteTx := tx,
    voteCastEvent := .ok [7], globalCounter := .ok 7 }

/-! ## Supporting lemmas -/

/-- Sanity check: the embedded SHA-256 reproduces the NIST test vector. -/
theorem sha256Hex_abc :
    sha256Hex "abc" = "ba7816bf8f01cfea414140de5dae2223b00361a396177a9cb410ff61f20015ad" := by
  decide

/-- The fuelled decimal-digit function agrees with `Nat.digits 10`. -/
theorem decDigitsAux_eq_digits : ∀ (fuel n : Nat), n ≤ fuel →
    decDigitsAux fuel n = Nat.digits 10 n := by
  intro fuel
  induction fuel with
  | zero =>
    intro n hn
    interval_cases n
    simp [decDigitsAux]
  | succ f ih =>
    intro n hn
    by_cases h0 : n = 0
    · subst h0; simp [decDigitsAux]
    · rw [decDigitsAux, if_neg h0, Nat.digits_def' (by norm_num) (Nat.pos_of_ne_zero h0),
        ih (n / 10) ?_]
      have := Nat.div_lt_self (Nat.pos_of_ne_zero h0) (show 1 < 10 by norm_num)
      omega

/-- `decChar` is injective on decimal digits. -/
theorem decChar_inj_lt : ∀ a < 10, ∀ b < 10, decChar a = decChar b → a = b := by decide

/-- Mapping `decChar` over digit lists is injective. -/
theorem map_decChar_inj : ∀ (xs ys : List Nat), (∀ x ∈ xs, x < 10) → (∀ y ∈ ys, y < 10) →
    xs.map decChar = ys.map decChar → xs = ys := by
  intro xs
  induction xs with
  | nil => intro ys _ _ h; cases ys <;> simp_all
  | cons x xs ih =>
    intro ys hxs hys h
    cases ys with
    | nil => simp_all
    | cons y ys =>
      simp only [List.map_cons, List.cons.injEq] at h
      have hx := decChar_inj_lt x (hxs x (by simp)) y (hys y (by simp)) h.1
      subst hx
      rw [ih ys (fun a ha => hxs a (by simp [ha])) (fun a ha => hys a (by simp [ha])) h.2]

/-- A nonzero number never prints as `"0"`. -/
theorem eq_zero_of_natRepr_eq_zero {n : Nat} (h : natRepr n = "0") : n = 0 := by
  by_cases hn : n = 0
  · exact hn
  · exfalso
    unfold natRepr at h
    rw [if_neg hn, decDigitsAux_eq_digits n n le_rfl] at h
    have hd := congrArg String.data h
    simp only [String.data] at hd
    have hlen := congrArg List.length hd
    simp only [List.length_map, List.length_reverse] at hlen
    obtain ⟨d, hdig⟩ := List.length_eq_one.mp (show (Nat.digits 10 n).length = 1 by
      simpa using hlen)
    rw [hdig] at hd
    simp only [List.reverse_singleton, List.map_cons, List.map_nil] at hd
    have hd0 : decChar d = '0' := by
      simpa [String.data] using congrArg (fun l => l.headI) hd
    have hdlt : d < 10 := Nat.digits_lt_base (by norm_num) (by rw [hdig]; simp)
    have hd00 : d = 0 := decChar_inj_lt d hdlt 0 (by norm_num) (by simpa [decChar] using hd0)
    have hofd := Nat.ofDigits_digits 10 n
    rw [hdig, hd00] at hofd
    simp [Nat.ofDigits] at hofd
    exact hn hofd.symm

/-- The decimal formatter is injective: distinct numbers print differently. -/
theorem natRepr_inj {m n : Nat} (h : natRepr m = natRepr n) : m = n := by
  by_cases hm : m = 0 <;> by_cases hn : n = 0
  · exact hm.trans hn.symm
  · exfalso
    rw [hm] at h
    exact hn (eq_zero_of_natRepr_eq_zero (show natRepr n = "0" from h.symm ▸ rfl))
  · exfalso
    rw [hn] at h
    exact hm (eq_zero_of_natRepr_eq_zero (show natRepr m = "0" from h ▸ rfl))
  · unfold natRepr at h
    rw [if_neg hm, if_neg hn, decDigitsAux_eq_digits m m le_rfl,
      decDigitsAux_eq_digits n n le_rfl] at h
    have hd := congrArg String.data h
    simp only [String.data] at hd
    have hrev := map_decChar_inj (Nat.digits 10 m).reverse (Nat.digits 10 n).reverse
      (fun x hx => Nat.digits_lt_base (by norm_num) (List.mem_reverse.mp hx))
      (fun y hy => Nat.digits_lt_base (by norm_num) (List.mem_reverse.mp hy)) hd
    have hdig : Nat.digits 10 m = Nat.digits 10 n := by
      have := congrArg List.reverse hrev
      simpa using this
    calc m = Nat.ofDigits 10 (Nat.digits 10 m) := (Nat.ofDigits_digits 10 m).symm
    _ = Nat.ofDigits 10 (Nat.digits 10 n) := by rw [hdig]
    _ = n := Nat.ofDigits_digits 10 n

/-- Left cancellation for string concatenation. -/
theorem string_append_cancel_left {a b c : String} (h : a ++ b = a ++ c) : b = c := by
  have hd := congrArg String.data h
  simp only [String.data_append] at hd
  exact String.ext (List.append_cancel_left hd)

/-- Python `or` on strings is associative. -/
theorem pyOr_assoc (a b c : String) : pyOr (pyOr a b) c = pyOr a (pyOr b c) := by
  unfold pyOr
  split_ifs <;> simp_all

/-- Re-applying the same fallback through Python `or` changes nothing. -/
theorem pyOr_absorb (x c : String) : pyOr (pyOr x c) c = pyOr x c := by
  unfold pyOr
  split_ifs <;> simp_all

/-! ## The claims -/

/-- Claim C1: the receipt row cached after a successful vote carries only
receipt id, election id, enrollment hash, visible tag, transaction hash,
block number and timestamp (`VoteReceiptRow` — mirroring the
`vote_receipts` table — has no candidate column at all), and it is computed
without reference to the `candidate_id` argument: holding the request,
clock, oracle answers and database fixed, two runs of either vote endpoint
with different (parseable) candidate ids produce identical results — in
particular identical receipt caches. -/
theorem c1_receipt_no_candidate (eid : Nat) (enr c1 c2 img : Option String) (now : Nat)
    (o : VoteOracle) (db : DB) (n1 n2 : Int)
    (h1 : pyIntParse (c1.getD "") = some n1) (h2 : pyIntParse (c2.getD "") = some n2)
    (ht1 : pyTruthy c1 = true) (ht2 : pyTruthy c2 = true) :
    vote_v2 eid enr c1 img now o db = vote_v2 eid enr c2 img now o db ∧
    vote_legacy eid enr c1 img now o db = vote_legacy eid enr c2 img now o db := by
  constructor
  · unfold vote_v2
    simp only [ht1, ht2, h1, h2]
  · unfold vote_legacy
    simp only [ht1, ht2, h1, h2]

/-- Witness for C1 at a concrete state: voting for candidate "1" and for
candidate "2" store the same receipt and return the same response. -/
theorem c1_witness :
    vote_v2 1 (some "E100") (some "1") (some "img") 0
      (wOracle (.ok 1) (.success "0xaa" 9)) wVoterDB =
    vote_v2 1 (some "E100") (some "2") (some "img") 0
      (wOracle (.ok 1) (.success "0xaa" 9)) wVoterDB :=
  (c1_receipt_no_candidate 1 (some "E100") (some "1") (some "2") (some "img") 0
    (wOracle (.ok 1) (.success "0xaa" 9)) wVoterDB 1 2 (by decide) (by decide) rfl rfl).1

/-- Claim C2: `verify_receipt` follows the cache-fallback policy. If the
ledger call raises and a cached row exists, the answer is verified, with
the "blockchain unavailable" note and status 200; raising with no cached
row is a hard 500 failure. If the ledger call succeeds but reports the
receipt absent, a cached row still verifies (from the database), and no
cached row gives the 404 not-found answer. -/
theorem c2_verify_cache_fallback (rid : Nat) (db : DB) :
    (∀ e r, db.vote_receipts.find? (fun x => x.receipt_id == some rid) = some r →
      verify_receipt rid (.error e) db =
        { verified := true,
          blockchain := some { receipt_id := r.receipt_id, election_id := r.election_id,
                               visible_tag := r.visible_tag, timestamp := 0, exists_flag := true },
          localRow := some r,
          message := some "Vote verified from local database (blockchain unavailable)",
          error := none, status := 200 }) ∧
    (∀ e, db.vote_receipts.find? (fun x => x.receipt_id == some rid) = none →
      verify_receipt rid (.error e) db =
        { verified := false, blockchain := none, localRow := none,
          message := none, error := some e, status := 500 }) ∧
    (∀ d r, d.exists_flag = false →
      db.vote_receipts.find? (fun x => x.receipt_id == some rid) = some r →
      verify_receipt rid (.ok d) db =
        { verified := true,
          blockchain := some { receipt_id := r.receipt_id, election_id := r.election_id,
                               visible_tag := r.visible_tag, timestamp := 0, exists_flag := true },
          localRow := some r,
          message := some "Vote record found in database",
          error := none, status := 200 }) ∧
    (∀ d, d.exists_flag = false →
      db.vote_receipts.find? (fun x => x.receipt_id == some rid) = none →
      verify_receipt rid (.ok d) db =
        { verified := false, blockchain := none, localRow := none,
          message := none, error := some "Receipt not found", status := 404 }) := by
  refine ⟨?_, ?_, ?_, ?_⟩
  · intro e r hfind
    unfold verify_receipt
    rw [hfind]
  · intro e hfind
    unfold verify_receipt
    rw [hfind]
  · intro d r hex hfind
    unfold verify_receipt
    rw [hfind]
    simp [hex]
  · intro d hex hfind
    unfold verify_receipt
    rw [hfind]
    simp [hex]

/-- Witness for C2: a locally recorded receipt verifies from the cache
while the ledger is unreachable. -/
theorem c2_witness :
    verify_receipt 5 (Except.error "node unreachable")
      { admins := [], voters := [], elections := [],
        vote_receipts := [{ receipt_id := some 5, election_id := 1, enrollment_hash := "0xaa",
                            visible_tag := "0xaa", tx_hash := "0xt", block_number := 2,
                            timestamp := 0 }],
        registrations := [] } =
      { verified := true,
        blockchain := some { receipt_id := some 5, election_id := 1, visible_tag := "0xaa",
                             timestamp := 0, exists_flag := true },
        localRow := some { receipt_id := some 5, election_id := 1, enrollment_hash := "0xaa",
                           visible_tag := "0xaa", tx_hash := "0xt", block_number := 2,
                           timestamp := 0 },
        message := some "Vote verified from local database (blockchain unavailable)",
        error := none, status := 200 } :=
  (c2_verify_cache_fallback 5
      { admins := [], voters := [], elections := [],
        vote_receipts := [{ receipt_id := some 5, election_id := 1, enrollment_hash := "0xaa",
                            visible_tag := "0xaa", tx_hash := "0xt", block_number := 2,
                            timestamp := 0 }],
        registrations := [] }).1 "node unreachable"
    { receipt_id := some 5, election_id := 1, enrollment_hash := "0xaa",
      visible_tag := "0xaa", tx_hash := "0xt", block_number := 2, timestamp := 0 }
    (by rfl)

/-- Counterexample to C3 as stated: the claim quantifies over all
vote-casting entry points, but the legacy `/vote` endpoint checks only the
raw ledger phase. At a state whose cached deadline (100) is before the
clock (200) and whose ledger phase is ACTIVE — so the resolved effective
phase is EXPIRED — the legacy endpoint still hands the vote to the
transaction submitter and reports success instead of a phase-gate error. -/
theorem c3_counterexample :
    list_elections_phase 1 (findElection wExpiredDB 1) 200 = "EXPIRED" ∧
    (vote_legacy 1 (some "E100") (some "1") (some "img") 200
      (wOracle (.ok 1) (.success "0xabc" 9)) wExpiredDB).2.2 = true ∧
    (vote_legacy 1 (some "E100") (some "1") (some "img") 200
      (wOracle (.ok 1) (.success "0xabc" 9)) wExpiredDB).1 =
      .voteSuccess "0xabc" (some 7) 9 none := by
  refine ⟨by decide, by decide, by decide⟩

/-- Claim C3, amended: when the cached `expiresAt` is strictly past and the
ledger reports ACTIVE, the effective phase resolves to EXPIRED and a vote
through the v2 endpoint (`/api/elections/<id>/vote`) is rejected with the
phase-gate error before any ledger submission; the legacy `/vote` endpoint
is excluded — it ignores the cached expiry (see the counterexample). -/
theorem c3_expired_vote_rejected (eid : Nat) (enr cand img : Option String) (now t : Nat)
    (o : VoteOracle) (db : DB) (el : ElectionRow)
    (hfields : pyTruthy enr = true ∧ pyTruthy cand = true ∧ pyTruthy img = true)
    (hfind : findElection db eid = some el) (hexp : el.expires_at = some t) (hpast : t < now)
    (hledger : o.phaseCall = .ok 1) :
    list_elections_phase 1 (findElection db eid) now = "EXPIRED" ∧
    vote_v2 eid enr cand img now o db = (.phaseGate "EXPIRED", db, false) := by
  have hv : vote_v2_phase 1 (findElection db eid) now = "EXPIRED" := by
    rw [hfind]
    simp [vote_v2_phase, PHASE_MAP, hexp, hpast]
  constructor
  · rw [hfind]
    simp [list_elections_phase, PHASE_MAP, hexp, hpast]
  · unfold vote_v2
    simp [hfields, hledger, hv]

/-- Witness for the amended C3 at a concrete expired election. -/
theorem c3_witness :
    vote_v2 1 (some "E100") (some "1") (some "img") 200
      (wOracle (.ok 1) (.success "0xabc" 9)) wExpiredDB =
      (.phaseGate "EXPIRED", wExpiredDB, false) :=
  (c3_expired_vote_rejected 1 (some "E100") (some "1") (some "img") 200 100
    (wOracle (.ok 1) (.success "0xabc" 9)) wExpiredDB
    { blockchain_id := 1, name := "GE", description := "", phase := "ACTIVE",
      is_live_results := true, expires_at := some 100, started_at := none, ended_at := none }
    (by decide) (by decide) rfl (by decide) rfl).2

/-- Counterexample to C4 as stated: a free-text transport exception with no
revert marker is returned verbatim by `send_contract_tx` — raw transport
internals, not the `"Blockchain error"` sentinel. -/
theorem c4_counterexample :
    (send_contract_tx (.failure (.otherException
      "HTTPConnectionPool host=127.0.0.1 port=7545: Max retries exceeded"))).error =
      some "HTTPConnectionPool host=127.0.0.1 port=7545: Max retries exceeded" ∧
    "HTTPConnectionPool host=127.0.0.1 port=7545: Max retries exceeded" ≠
      "Blockchain error" := by
  refine ⟨by decide, by decide⟩

/-- Claim C4, amended: every failure of `send_contract_tx` yields a single
flat reason string. On the structured `ValueError` path the fallback order
is data.reason → data.message → message → the `"Blockchain error"`
sentinel (so a structured failure with no extractable reason returns
exactly the sentinel). On the free-text path, a reason is extracted from a
`revert <reason>` marker when one matches; otherwise the raw exception
text is returned verbatim — the sentinel does not apply there. -/
theorem c4_error_normalization :
    (∀ d : ErrDict, d.dataIsDict = true →
      (send_contract_tx (.failure (.valueErrorDict d))).error =
        some (pyOr (optStr d.dataReason) (pyOr (optStr d.dataMessage)
          (pyOr (optStr d.message) "Blockchain error")))) ∧
    (∀ d : ErrDict, d.dataIsDict = false →
      (send_contract_tx (.failure (.valueErrorDict d))).error =
        some (pyOr (optStr d.message) "Blockchain error")) ∧
    (∀ s, (send_contract_tx (.failure (.valueErrorOther s))).error =
        some (pyOr s "Blockchain error")) ∧
    (∀ s r, extractRevertReason s = some r →
      (send_contract_tx (.failure (.otherException s))).error = some r) ∧
    (∀ s, extractRevertReason s = none →
      (send_contract_tx (.failure (.otherException s))).error = some s) := by
  refine ⟨?_, ?_, ?_, ?_, ?_⟩
  · intro d hd
    simp only [send_contract_tx, normalizeFailure, hd, if_true, pyOr_assoc, pyOr_absorb]
    rw [show pyOr "Blockchain error" "Blockchain error" = "Blockchain error" from rfl]
  · intro d hd
    simp only [send_contract_tx, normalizeFailure, hd, Bool.false_eq_true, if_false, pyOr_assoc]
    rw [show pyOr "Blockchain error" "Blockchain error" = "Blockchain error" from rfl]
    rw [show ∀ x, pyOr "" x = x from fun x => rfl]
  · intro s
    rfl
  · intro s r hr
    simp [send_contract_tx, normalizeFailure, hr]
  · intro s hr
    simp [send_contract_tx, normalizeFailure, hr]

/-- Witness for the amended C4: an empty structured failure yields the
sentinel. -/
theorem c4_witness :
    (send_contract_tx (.failure (.valueErrorDict ⟨true, none, none, none⟩))).error =
      some "Blockchain error" := by
  have h := c4_error_normalization.1 ⟨true, none, none, none⟩ rfl
  simpa using h

/-- Claim C5: the enrollment hash is `"0x"` followed by the hex SHA-256
digest of `enrollment ++ ":" ++ election_id` (first conjunct, with the
digest embedded executably and checked against its test vector elsewhere);
it is deterministic (second conjunct); distinct election ids give distinct
hashes for a fixed enrollment, assuming digest injectivity on the two
inputs (third conjunct — the underlying fact proved here is that the two
digest inputs really differ, via injectivity of the decimal formatter);
and a successful v2 vote returns as `visible_tag` exactly the first 10
characters of this hash (fourth conjunct). -/
theorem c5_enrollment_hash_scheme (e : String) (id1 id2 : Nat) (hne : id1 ≠ id2)
    (hinj : sha256Hex (e ++ ":" ++ natRepr id1) = sha256Hex (e ++ ":" ++ natRepr id2) →
      e ++ ":" ++ natRepr id1 = e ++ ":" ++ natRepr id2) :
    (∀ e' id', generate_enrollment_hash e' id' =
        "0x" ++ sha256Hex (e' ++ ":" ++ natRepr id')) ∧
    (∀ ea eb ida idb, ea = eb → ida = idb →
      generate_enrollment_hash ea ida = generate_enrollment_hash eb idb) ∧
    generate_enrollment_hash e id1 ≠ generate_enrollment_hash e id2 ∧
    (∀ eid enr cand img now o db tx rid bn vt,
      (vote_v2 eid (some enr) cand img now o db).1 = .voteSuccess tx rid bn vt →
      vt = some ((generate_enrollment_hash enr eid).take 10)) := by
  refine ⟨fun _ _ => rfl, ?_, ?_, ?_⟩
  · intro ea eb ida idb h1 h2
    rw [h1, h2]
  · intro h
    unfold generate_enrollment_hash at h
    have hdg := string_append_cancel_left h
    have hmsg := hinj hdg
    have hrep := string_append_cancel_left hmsg
    exact hne (natRepr_inj hrep)
  · intro eid enr cand img now o db tx rid bn vt hsucc
    unfold vote_v2 at hsucc
    repeat' split at hsucc <;> try simp_all

/-- Witness for C5: elections 3 and 4 give the voter `"E100"` different
enrollment hashes (the digest-injectivity hypothesis is discharged by
computing both digests). -/
theorem c5_witness :
    generate_enrollment_hash "E100" 3 ≠ generate_enrollment_hash "E100" 4 :=
  (c5_enrollment_hash_scheme "E100" 3 4 (by decide)
    (fun hcol => absurd hcol (by decide))).2.2.1

/-- Claim C6: if the effective phase of the election is anything other than
ACTIVE (CREATED, ENDED, RESULT_DECLARED, the derived EXPIRED, or an
unknown enum value), a v2 vote request is rejected with the phase-gate
error and nothing is handed to the transaction submitter; and if the
ledger phase query itself fails, the vote is likewise rejected (fail
closed) with no submission. -/
theorem c6_phase_gate (eid : Nat) (enr cand img : Option String) (now : Nat)
    (o : VoteOracle) (db : DB)
    (hfields : pyTruthy enr = true ∧ pyTruthy cand = true ∧ pyTruthy img = true)
    (hphase : ∀ p, o.phaseCall = .ok p →
      vote_v2_phase p (findElection db eid) now ≠ "ACTIVE") :
    (vote_v2 eid enr cand img now o db).2.2 = false ∧
    (vote_v2 eid enr cand img now o db).2.1 = db ∧
    ((∃ e, o.phaseCall = .error e ∧
        (vote_v2 eid enr cand img now o db).1 = .phaseCheckFailed e) ∨
     (∃ p, o.phaseCall = .ok p ∧
        (vote_v2 eid enr cand img now o db).1 =
          .phaseGate (vote_v2_phase p (findElection db eid) now))) := by
  cases hc : o.phaseCall with
  | error e =>
    unfold vote_v2
    refine ⟨?_, ?_, Or.inl ⟨e, rfl, ?_⟩⟩ <;> simp [hfields, hc]
  | ok p =>
    have hne := hphase p hc
    unfold vote_v2
    refine ⟨?_, ?_, Or.inr ⟨p, rfl, ?_⟩⟩ <;> simp [hfields, hc, hne]

/-- Witness for C6: with the ledger reporting ENDED, no transaction is
submitted and the database is untouched. -/
theorem c6_witness :
    (vote_v2 1 (some "E100") (some "1") (some "img") 0
      (wOracle (.ok 2) (.success "0xaa" 9)) wVoterDB).2.2 = false ∧
    (vote_v2 1 (some "E100") (some "1") (some "img") 0
      (wOracle (.ok 2) (.success "0xaa" 9)) wVoterDB).2.1 = wVoterDB :=
  ⟨(c6_phase_gate 1 (some "E100") (some "1") (some "img") 0
      (wOracle (.ok 2) (.success "0xaa" 9)) wVoterDB (by decide)
      (fun p hp => by cases hp; decide)).1,
   (c6_phase_gate 1 (some "E100") (some "1") (some "img") 0
      (wOracle (.ok 2) (.success "0xaa" 9)) wVoterDB (by decide)
      (fun p hp => by cases hp; decide)).2.1⟩

/-- Claim C7: with `is_live_results = false` and a phase other than
RESULT_DECLARED, candidate listing returns every candidate with zero
votes, while the candidate count, ids, names and response shape are
identical to the run with live results enabled — only the tallies differ;
the live run (and, by the final conjunct, any run with phase
RESULT_DECLARED) returns the real tallies. -/
theorem c7_hidden_tallies (eid : Nat) (data : ElectionData)
    (getCandidate : Nat → Nat × String × Nat) (dbH dbL : DB) (elH : ElectionRow)
    (hH : findElection dbH eid = some elH) (hHlive : elH.is_live_results = false)
    (hphase : PHASE_MAP data.phase_int ≠ "RESULT_DECLARED")
    (hL : (findElection dbL eid).all (fun el => el.is_live_results) = true) :
    (∃ hidden live,
      list_candidates eid (.ok data) getCandidate dbH = .ok hidden ∧
      list_candidates eid (.ok data) getCandidate dbL = .ok live ∧
      hidden = (List.range data.candidateCount).map (fun j =>
        { id := (getCandidate (j + 1)).1, name := (getCandidate (j + 1)).2.1, votes := 0 }) ∧
      live = (List.range data.candidateCount).map (fun j =>
        { id := (getCandidate (j + 1)).1, name := (getCandidate (j + 1)).2.1,
          votes := (getCandidate (j + 1)).2.2 }) ∧
      hidden.length = live.length ∧
      hidden.map CandidateOut.id = live.map CandidateOut.id ∧
      hidden.map CandidateOut.name = live.map CandidateOut.name ∧
      (∀ c ∈ hidden, c.votes = 0)) ∧
    (∀ (data' : ElectionData) (db' : DB), PHASE_MAP data'.phase_int = "RESULT_DECLARED" →
      list_candidates eid (.ok data') getCandidate db' =
        .ok ((List.range data'.candidateCount).map (fun j =>
          { id := (getCandidate (j + 1)).1, name := (getCandidate (j + 1)).2.1,
            votes := (getCandidate (j + 1)).2.2 }))) := by
  constructor
  · refine ⟨_, _, ?_, ?_, rfl, rfl, ?_, ?_, ?_, ?_⟩
    · unfold list_candidates
      rw [hH]
      simp [hHlive, hphase]
    · unfold list_candidates
      cases hfind : findElection dbL eid with
      | none => simp
      | some el =>
        rw [hfind] at hL
        simp only [Option.all_some] at hL
        simp [hL]
    · simp
    · simp [List.map_map]
    · simp [List.map_map]
    · intro c hc
      simp only [List.mem_map] at hc
      obtain ⟨j, _, hj⟩ := hc
      rw [← hj]
  · intro data' db' hdecl
    unfold list_candidates
    cases hfind : findElection db' eid with
    | none => simp [hdecl]
    | some el => simp [hdecl]

/-- Witness for C7: a hidden, ENDED election lists its two candidates with
zeroed tallies. -/
theorem c7_witness :
    list_candidates 1
      (.ok { id := 1, name := "GE", description := "", phase_int := 2,
             candidateCount := 2, totalVotes := 0, createdAt := 0, startedAt := 0,
             endedAt := 0 })
      (fun i => (i, "C", 5)) wHiddenDB =
      .ok [{ id := 1, name := "C", votes := 0 }, { id := 2, name := "C", votes := 0 }] := by
  obtain ⟨hidden, live, hrun, _, hform, _⟩ :=
    (c7_hidden_tallies 1
      { id := 1, name := "GE", description := "", phase_int := 2, candidateCount := 2,
        totalVotes := 0, createdAt := 0, startedAt := 0, endedAt := 0 }
      (fun i => (i, "C", 5)) wHiddenDB wVoterDB
      { blockchain_id := 1, name := "GE", description := "", phase := "ENDED",
        is_live_results := false, expires_at := none, started_at := none, ended_at := none }
      (by decide) (by decide) (by decide) (by decide)).1
  rw [hrun, hform]
  rfl

/-- Claim C8: when the submitter reports a failure whose normalized reason
contains "already voted" (case-insensitively), a vote that reached the
submission step returns the dedicated already-voted error, and the receipt
cache is unchanged — on both vote endpoints. -/
theorem c8_already_voted (eid : Nat) (enr cand img : Option String) (now : Nat)
    (o : VoteOracle) (db : DB) (f : TxFailure) (hTx : o.voteTx = .failure f)
    (hreason : pyIn "already voted" (pyLower (normalizeFailure f)) = true) :
    ((vote_v2 eid enr cand img now o db).2.1 = db ∧
      ((vote_v2 eid enr cand img now o db).2.2 = true →
        (vote_v2 eid enr cand img now o db).1 = .alreadyVoted)) ∧
    ((vote_legacy eid enr cand img now o db).2.1 = db ∧
      ((vote_legacy eid enr cand img now o db).2.2 = true →
        (vote_legacy eid enr cand img now o db).1 = .alreadyVoted)) := by
  constructor
  · unfold vote_v2
    repeat' split <;> try simp_all [hTx, send_contract_tx, compare_faces]
  · unfold vote_legacy
    repeat' split <;> try simp_all [hTx, send_contract_tx, compare_faces]

/-- Witness for C8: a revert carrying "already voted" surfaces as the
dedicated error on a concrete run that reaches submission. -/
theorem c8_witness :
    (vote_v2 1 (some "E100") (some "1") (some "img") 0
      (wOracle (.ok 1) (.failure (.otherException
        "VM Exception while processing transaction: revert You have already voted")))
      wVoterDB).1 = .alreadyVoted :=
  ((c8_already_voted 1 (some "E100") (some "1") (some "img") 0
      (wOracle (.ok 1) (.failure (.otherException
        "VM Exception while processing transaction: revert You have already voted")))
      wVoterDB
      (.otherException "VM Exception while processing transaction: revert You have already voted")
      rfl (by decide)).1).2 (by decide)

/-- Claim C9: when the transaction submitter reports a failure, every
mutating endpoint leaves the local cache exactly as it was: no election
row is inserted or updated and no receipt row is inserted. -/
theorem c9_cache_untouched (f : TxFailure) (name : Option String) (desc : String)
    (live : Bool) (exp : Option Nat) (cnt : Except String Nat) (eid now : Nat)
    (enr cand img : Option String) (o : VoteOracle) (db : DB)
    (hTx : o.voteTx = .failure f) :
    (create_election name desc live exp (.failure f) cnt db).2 = db ∧
    (start_election eid (.failure f) now db).2 = db ∧
    (end_election eid (.failure f) now db).2 = db ∧
    (declare_results eid (.failure f) db).2 = db ∧
    (vote_v2 eid enr cand img now o db).2.1 = db ∧
    (vote_legacy eid enr cand img now o db).2.1 = db := by
  refine ⟨?_, ?_, ?_, ?_, ?_, ?_⟩
  · unfold create_election
    split <;> simp [send_contract_tx]
  · unfold start_election
    simp [send_contract_tx]
  · unfold end_election
    simp [send_contract_tx]
  · unfold declare_results
    simp [send_contract_tx]
  · unfold vote_v2
    repeat' split <;> try simp_all [hTx, send_contract_tx, compare_faces]
  · unfold vote_legacy
    repeat' split <;> try simp_all [hTx, send_contract_tx, compare_faces]

/-- Witness for C9: a failed creation leaves the cache unchanged. -/
theorem c9_witness :
    (create_election (some "GE") "" true none
      (.failure (.valueErrorDict ⟨true, some "boom", none, none⟩)) (.ok 1) wVoterDB).2 =
      wVoterDB :=
  (c9_cache_untouched (.valueErrorDict ⟨true, some "boom", none, none⟩) (some "GE") "" true none
    (.ok 1) 1 0 (some "E100") (some "1") (some "img")
    (wOracle (.ok 1) (.failure (.valueErrorDict ⟨true, some "boom", none, none⟩)))
    wVoterDB rfl).1

/-- Claim C10: the shipped `compare_faces` returns `True` on every pair of
inputs, so the Face mismatch branches of the admin face login and of both
vote endpoints are unreachable — no request is ever rejected on biometric
grounds. -/
theorem c10_biometric_always_accepts :
    (∀ kb img, compare_faces kb img = true) ∧
    (∀ u si db, admin_login_face u si db ≠ .faceMismatch) ∧
    (∀ eid enr cand img now o db, (vote_v2 eid enr cand img now o db).1 ≠ .faceMismatch) ∧
    (∀ eid enr cand img now o db, (vote_legacy eid enr cand img now o db).1 ≠ .faceMismatch) := by
  refine ⟨fun _ _ => rfl, ?_, ?_, ?_⟩
  · intro u si db
    unfold admin_login_face
    repeat' split <;> try simp_all [compare_faces]
  · intro eid enr cand img now o db
    unfold vote_v2
    repeat' split <;> try simp_all [compare_faces]
  · intro eid enr cand img now o db
    unfold vote_legacy
    repeat' split <;> try simp_all [compare_faces]

/-- Witness instantiating C10 at a concrete request. -/
theorem c10_witness :
    (vote_v2 1 (some "E100") (some "1") (some "img") 0
      (wOracle (.ok 1) (.success "0xaa" 9)) wVoterDB).1 ≠ .faceMismatch :=
  c10_biometric_always_accepts.2.2.1 1 (some "E100") (some "1") (some "img") 0
    (wOracle (.ok 1) (.success "0xaa" 9)) wVoterDB

end VoteRakshak
